import Mathlib

/-!
# Verification of the iambic tone generator

Shallow embedding of `iambicToneGenerator.ino` (version 2): the paddle
state machine `updateMainState`, the tone state machine `updateToneState`,
the speed setter `setWordSpeed`, and the `setup` initial state.

The C program stores both machine states in `int` globals holding the
`#define`d state codes, so states, tone types and times are embedded as
`Nat`.  Arduino `millis()` readings and the `unsigned long toneTimer` are
embedded as `Nat` (the claims under study never exercise the 32-bit
wrap-around of `millis()`).

Timing: the sequencer reads the preprocessor macros `DIT_TIME` / `DAH_TIME`,
which are fixed at build time from `CODE_SPEED`; we keep them as explicit
`ditT` / `dahT` parameters of `updateToneState` (so theorems hold for every
build-time speed) and instantiate them with the shipped values in the
global-state wrapper `updateToneStateG`.  The runtime setter `setWordSpeed`
writes the separate globals `ditTime` / `dahTime`.
-/

namespace IambicTone

/-! ## The #define constants of the source -/

def CODE_SPEED : Nat := 20

/-- `#define WORD_TIME 60.0 / CODE_SPEED` then `#define DIT_TIME 1000 * WORD_TIME / 50`:
for `CODE_SPEED = 20` the floating expression `1000 * 60.0 / 20 / 50` is exactly 60.0,
and assigning it to the `unsigned long toneTimer` truncates to 60. -/
def DIT_TIME : Nat := 1000 * 60 / CODE_SPEED / 50

/-- `#define DAH_TIME DIT_TIME * 3` (exactly 180.0 for the shipped speed). -/
def DAH_TIME : Nat := DIT_TIME * 3

-- Main (paddle) states:
def IDLE_STATE : Nat := 0
def DIT_INPUT : Nat := 1
def DAH_INPUT : Nat := 2
def DIT_DAH_INPUT : Nat := 3
def DAH_DIT_INPUT : Nat := 4

-- Tone states:
def TONE_ON : Nat := 1
def TONE_PAUSE : Nat := 2

-- Tone types:
def QUIET : Nat := 0
def DIT : Nat := 1
def DAH : Nat := 2
def DIT_DAH : Nat := 3
def DAH_DIT : Nat := 4

/-! ## Global state -/

/-- The globals of the sketch that the two state machines and the speed
setter read or write: `state`, `toneState`, `lastTone`, `toneType`,
`toneTimer`, `ditTime`, `dahTime`.  (The global `wordTime` is omitted: the
only assignment to a `wordTime` in the program is to a local that shadows
it, so the global is never written nor read.) -/
structure Globals where
  state : Nat
  toneState : Nat
  lastTone : Nat
  toneType : Nat
  toneTimer : Nat
  ditTime : Nat
  dahTime : Nat
deriving DecidableEq, Repr

/-- `setWordSpeed(int speed)`: `wordTime = (unsigned long)(60.0 / (float)speed)`
truncates the float quotient to an integer second count, which for positive
`speed` is exactly `Nat` division; the two following products are exact in
floating point (multiples of 20 and 3 below 2^24), so the remaining casts
are the identity. -/
def setWordSpeed (speed : Nat) (g : Globals) : Globals :=
  let wordTime := 60 / speed
  let ditTime := 1000 * wordTime / 50
  let dahTime := ditTime * 3
  { g with ditTime := ditTime, dahTime := dahTime }

/-! ## The paddle state machine -/

/-- The two fields of `Globals` that `updateMainState` touches. -/
structure MainSt where
  state : Nat
  toneType : Nat
deriving DecidableEq, Repr

/-- `updateMainState()`.  `ditKeyInput` / `dahKeyInput` are
`digitalRead(pin) == LOW`, i.e. true when the paddle is pressed. -/
def updateMainState (ditKeyInput dahKeyInput : Bool) (s : MainSt) : MainSt :=
  if s.state = IDLE_STATE then
    if ditKeyInput then
      { state := DIT_INPUT, toneType := DIT }
    else if dahKeyInput then
      { state := DAH_INPUT, toneType := DAH }
    else
      { s with toneType := QUIET }
  else if s.state = DIT_INPUT then
    if !ditKeyInput && !dahKeyInput then
      { state := IDLE_STATE, toneType := QUIET }
    else if ditKeyInput && dahKeyInput then
      { state := DIT_DAH_INPUT, toneType := DIT_DAH }
    else
      s
  else if s.state = DAH_INPUT then
    if !ditKeyInput && !dahKeyInput then
      { state := IDLE_STATE, toneType := QUIET }
    else if ditKeyInput && dahKeyInput then
      { state := DIT_DAH_INPUT, toneType := DAH_DIT }
    else
      s
  else if s.state = DIT_DAH_INPUT then
    if !ditKeyInput || !dahKeyInput then
      { state := IDLE_STATE, toneType := QUIET }
    else
      s
  else
    s

/-! ## The tone state machine -/

/-- The side effect of one `updateToneState` call on the tone pin:
nothing, a `tone(TONE_PIN, TONE_FREQ)` call, or a `noTone(TONE_PIN)` call. -/
inductive ToneCmd
  | noop
  | toneOn
  | toneOff
deriving DecidableEq, Repr

/-- The three fields of `Globals` that `updateToneState` touches. -/
structure ToneSt where
  toneState : Nat
  lastTone : Nat
  toneTimer : Nat
deriving DecidableEq, Repr

/-- Result of one `updateToneState` call: new state, the returned `done`
flag, and the tone-pin side effect. -/
structure ToneResult where
  st : ToneSt
  done : Bool
  cmd : ToneCmd
deriving DecidableEq, Repr

/-- `updateToneState(int toneType)`.  `ditT` / `dahT` stand for the build-time
macros `DIT_TIME` / `DAH_TIME` and `now` for the `millis()` reading of this
tick; `millis() > toneTimer` is the strict comparison `s.toneTimer < now`.
The `switch` statements have no `default`, so unlisted codes fall through
with no effect. -/
def updateToneState (ditT dahT : Nat) (now : Nat) (toneType : Nat) (s : ToneSt) : ToneResult :=
  if s.toneState = IDLE_STATE then
    if toneType = DIT ∨ toneType = DIT_DAH then
      { st := { toneState := TONE_ON, lastTone := DIT, toneTimer := now + ditT },
        done := false, cmd := .toneOn }
    else if toneType = DAH ∨ toneType = DAH_DIT then
      { st := { toneState := TONE_ON, lastTone := DAH, toneTimer := now + dahT },
        done := false, cmd := .toneOn }
    else
      { st := s, done := false, cmd := .noop }
  else if s.toneState = TONE_ON then
    if s.toneTimer < now then
      { st := { s with toneState := TONE_PAUSE, toneTimer := now + ditT },
        done := false, cmd := .toneOff }
    else
      { st := s, done := false, cmd := .noop }
  else if s.toneState = TONE_PAUSE then
    if s.toneTimer < now then
      if toneType = QUIET ∨ toneType = DIT ∨ toneType = DAH then
        { st := { s with toneState := IDLE_STATE, lastTone := QUIET },
          done := true, cmd := .noop }
      else if toneType = DIT_DAH ∨ toneType = DAH_DIT then
        if s.lastTone = DIT then
          { st := { toneState := TONE_ON, lastTone := DAH, toneTimer := now + dahT },
            done := false, cmd := .toneOn }
        else
          { st := { toneState := TONE_ON, lastTone := DIT, toneTimer := now + ditT },
            done := false, cmd := .toneOn }
      else
        { st := s, done := false, cmd := .noop }
    else
      { st := s, done := false, cmd := .noop }
  else
    { st := s, done := false, cmd := .noop }

/-- `updateToneState` as it runs in the sketch: it reads and writes the
globals and uses the compile-time macros `DIT_TIME` / `DAH_TIME` — not the
`ditTime` / `dahTime` globals written by `setWordSpeed`. -/
def updateToneStateG (now : Nat) (g : Globals) : Globals × Bool × ToneCmd :=
  let r := updateToneState DIT_TIME DAH_TIME now g.toneType
    { toneState := g.toneState, lastTone := g.lastTone, toneTimer := g.toneTimer }
  ({ g with toneState := r.st.toneState, lastTone := r.st.lastTone,
            toneTimer := r.st.toneTimer }, r.done, r.cmd)

/-- `setup()`: globals start zero-initialized, then `setWordSpeed(CODE_SPEED)`
runs and `state = toneState = IDLE_STATE; lastTone = QUIET`. -/
def setup : Globals :=
  let g := setWordSpeed CODE_SPEED
    { state := 0, toneState := 0, lastTone := 0, toneType := 0,
      toneTimer := 0, ditTime := 0, dahTime := 0 }
  { g with state := IDLE_STATE, toneState := IDLE_STATE, lastTone := QUIET }

/-! ## Whole-system execution -/

/-- Combined state of both machines for whole-loop runs. -/
structure SysSt where
  main : MainSt
  tone : ToneSt
deriving DecidableEq, Repr

/-- One `loop()` iteration on the core state: `updateMainState()` then
`updateToneState(toneType)` at clock reading `now` (command processing
omitted: it only feeds `setWordSpeed`). -/
def loopStep (ditT dahT : Nat) (dit dah : Bool) (now : Nat) (s : SysSt) :
    SysSt × Bool × ToneCmd :=
  let m := updateMainState dit dah s.main
  let r := updateToneState ditT dahT now m.toneType s.tone
  ({ main := m, tone := r.st }, r.done, r.cmd)

/-- Run `loop()` over a list of ticks, each tick a pair of paddle readings
and a `millis()` value, and collect `lastTone` at every tick on which the
tone is started (`tone()` called): the sequence of elements keyed. -/
def runStarts (ditT dahT : Nat) : List (Bool × Bool × Nat) → SysSt → List Nat
  | [], _ => []
  | (dit, dah, now) :: rest, s =>
    let r := loopStep ditT dahT dit dah now s
    (if r.2.2 = ToneCmd.toneOn then [r.1.tone.lastTone] else []) ++
      runStarts ditT dahT rest r.1

/-- The core state after `setup()`. -/
def sysInit : SysSt :=
  { main := { state := IDLE_STATE, toneType := QUIET },
    tone := { toneState := IDLE_STATE, lastTone := QUIET, toneTimer := 0 } }

/-- Run only the paddle machine over a list of paddle readings. -/
def runMain : List (Bool × Bool) → MainSt → MainSt
  | [], s => s
  | (dit, dah) :: rest, s => runMain rest (updateMainState dit dah s)

/-- The paddle machine state after `setup()`. -/
def mainInit : MainSt := { state := IDLE_STATE, toneType := QUIET }

/-! ## Theorems -/

/-- Claim C1 (code-bug evidence): `setWordSpeed` leaves every sequencer
field untouched, so the in-flight element is indeed unchanged; but a
deadline computed after the call still uses the compile-time `DIT_TIME`
(60 ms), not the `ditTime` written by the setter — after `setWordSpeed 10`
(which stores `ditTime = 120`) a dit started at `now = 1000` gets deadline
`1060`, never `1120`. -/
theorem setWordSpeed_dead_store :
    (∀ speed g, (setWordSpeed speed g).state = g.state ∧
      (setWordSpeed speed g).toneState = g.toneState ∧
      (setWordSpeed speed g).lastTone = g.lastTone ∧
      (setWordSpeed speed g).toneType = g.toneType ∧
      (setWordSpeed speed g).toneTimer = g.toneTimer) ∧
    (setWordSpeed 10 setup).ditTime = 120 ∧
    (updateToneStateG 1000 { setWordSpeed 10 setup with toneType := DIT }).1.toneTimer
      = 1000 + DIT_TIME ∧
    1000 + DIT_TIME ≠ 1000 + (setWordSpeed 10 setup).ditTime := by
  exact ⟨fun speed g => ⟨rfl, rfl, rfl, rfl, rfl⟩, by decide, by decide, by decide⟩

/-- Claim C2 (code-bug evidence): `setWordSpeed` truncates `60.0 / speed`
to whole seconds before scaling, so 20 wpm and 10 wpm give the PARIS values
60 ms and 120 ms, but 40 wpm gives `ditTime = 20`, not the PARIS 30 ms. -/
theorem setWordSpeed_truncation_values :
    (setWordSpeed 20 setup).ditTime = 60 ∧
    (setWordSpeed 20 setup).dahTime = 180 ∧
    (setWordSpeed 10 setup).ditTime = 120 ∧
    (setWordSpeed 40 setup).ditTime = 20 ∧
    (setWordSpeed 40 setup).ditTime ≠ 30 := by
  decide

/-- Claim C3: from `DIT_DAH_INPUT` (Squeezing), if either paddle reads
released the machine emits `QUIET` and returns to `IDLE_STATE` on that same
tick, and no input whatsoever moves it into `DIT_INPUT` or `DAH_INPUT`. -/
theorem squeezing_release_goes_idle (d1 d2 : Bool) (s : MainSt)
    (hs : s.state = DIT_DAH_INPUT) :
    ((d1 = false ∨ d2 = false) →
      (updateMainState d1 d2 s).toneType = QUIET ∧
      (updateMainState d1 d2 s).state = IDLE_STATE) ∧
    (updateMainState d1 d2 s).state ≠ DIT_INPUT ∧
    (updateMainState d1 d2 s).state ≠ DAH_INPUT := by
  cases d1 <;> cases d2 <;>
    simp_all [updateMainState, IDLE_STATE, DIT_INPUT, DAH_INPUT, DIT_DAH_INPUT, QUIET]

/-- Witness for `squeezing_release_goes_idle` at a concrete squeeze state
with the dit paddle released. -/
theorem squeezing_release_goes_idle_witness :
    (updateMainState false true { state := DIT_DAH_INPUT, toneType := DIT_DAH }).toneType
      = QUIET ∧
    (updateMainState false true { state := DIT_DAH_INPUT, toneType := DIT_DAH }).state
      = IDLE_STATE :=
  (squeezing_release_goes_idle false true { state := DIT_DAH_INPUT, toneType := DIT_DAH }
    rfl).1 (Or.inl rfl)

/-- Claim C4: in `TONE_PAUSE` with the deadline passed and a squeeze intent
(`DIT_DAH` or `DAH_DIT`), the sequencer alternates on `lastTone`: after a
dit it starts a dah (`toneTimer = now + dahT`, `lastTone = DAH`), otherwise
a dit, entering `TONE_ON` either way; and a concrete run holding both
paddles with dit pressed first keys the element sequence Dit, Dah, Dit. -/
theorem squeeze_alternation (ditT dahT now tt : Nat) (s : ToneSt)
    (hs : s.toneState = TONE_PAUSE) (hd : s.toneTimer < now)
    (htt : tt = DIT_DAH ∨ tt = DAH_DIT) :
    (s.lastTone = DIT →
      updateToneState ditT dahT now tt s =
        { st := { toneState := TONE_ON, lastTone := DAH, toneTimer := now + dahT },
          done := false, cmd := ToneCmd.toneOn }) ∧
    (s.lastTone ≠ DIT →
      updateToneState ditT dahT now tt s =
        { st := { toneState := TONE_ON, lastTone := DIT, toneTimer := now + ditT },
          done := false, cmd := ToneCmd.toneOn }) ∧
    runStarts DIT_TIME DAH_TIME
      [(true, false, 0), (true, true, 1), (true, true, 61), (true, true, 122),
       (true, true, 303), (true, true, 364)] sysInit = [DIT, DAH, DIT] := by
  refine ⟨?_, ?_, by decide⟩ <;>
  · intro h
    rcases htt with h2 | h2 <;>
      simp_all [updateToneState, QUIET, DIT, DAH, DIT_DAH, DAH_DIT,
        IDLE_STATE, TONE_ON, TONE_PAUSE]

/-- Witness for `squeeze_alternation`: after a dit, a squeeze intent starts
a dah with deadline `now + dahT`. -/
theorem squeeze_alternation_witness :
    updateToneState 60 180 200 DIT_DAH
      { toneState := TONE_PAUSE, lastTone := DIT, toneTimer := 100 } =
      { st := { toneState := TONE_ON, lastTone := DAH, toneTimer := 200 + 180 },
        done := false, cmd := ToneCmd.toneOn } :=
  (squeeze_alternation 60 180 200 DIT_DAH
    { toneState := TONE_PAUSE, lastTone := DIT, toneTimer := 100 }
    rfl (by decide) (Or.inl rfl)).1 rfl

/-- Counterexample to claim C5: the code compares `millis() > toneTimer`
strictly, so at `now = deadline` (where the claim's `now ≥ deadline` holds)
the `TONE_ON` state does nothing: the tone is not stopped and the state
does not move to `TONE_PAUSE`. -/
theorem toneActive_at_deadline_no_transition :
    100 ≤ (100 : Nat) ∧
    updateToneState 60 180 100 QUIET
      { toneState := TONE_ON, lastTone := DIT, toneTimer := 100 } =
      { st := { toneState := TONE_ON, lastTone := DIT, toneTimer := 100 },
        done := false, cmd := ToneCmd.noop } := by
  decide

/-- Claim C5 (amended): in `TONE_ON`, when `now` is strictly greater than
the deadline the sequencer stops the tone, sets `toneTimer = now + ditT`
and moves to `TONE_PAUSE`; when `now ≤ deadline` it does nothing. -/
theorem toneActive_strict_deadline (ditT dahT now tt : Nat) (s : ToneSt)
    (hs : s.toneState = TONE_ON) :
    (s.toneTimer < now →
      updateToneState ditT dahT now tt s =
        { st := { s with toneState := TONE_PAUSE, toneTimer := now + ditT },
          done := false, cmd := ToneCmd.toneOff }) ∧
    (now ≤ s.toneTimer →
      updateToneState ditT dahT now tt s =
        { st := s, done := false, cmd := ToneCmd.noop }) := by
  constructor
  · intro h
    simp [updateToneState, hs, h, TONE_ON, IDLE_STATE]
  · intro h
    simp [updateToneState, hs, Nat.not_lt.mpr h, TONE_ON, IDLE_STATE]

/-- Witness for `toneActive_strict_deadline` one millisecond past the
deadline. -/
theorem toneActive_strict_deadline_witness :
    updateToneState 60 180 101 QUIET
      { toneState := TONE_ON, lastTone := DIT, toneTimer := 100 } =
      { st := { toneState := TONE_PAUSE, lastTone := DIT, toneTimer := 101 + 60 },
        done := false, cmd := ToneCmd.toneOff } :=
  (toneActive_strict_deadline 60 180 101 QUIET
    { toneState := TONE_ON, lastTone := DIT, toneTimer := 100 } rfl).1 (by decide)

/-- Claim C6: whichever element just played (any `lastTone`), the
`TONE_ON` → `TONE_PAUSE` transition always arms a silence of exactly one
dit-duration (`toneTimer = now + ditT`) while switching the tone off, and
while that silence deadline has not passed the `TONE_PAUSE` state neither
starts a tone nor changes state. -/
theorem post_element_silence_one_dit (ditT dahT now tt : Nat) (s : ToneSt) :
    (s.toneState = TONE_ON → s.toneTimer < now →
      (updateToneState ditT dahT now tt s).st.toneState = TONE_PAUSE ∧
      (updateToneState ditT dahT now tt s).st.toneTimer = now + ditT ∧
      (updateToneState ditT dahT now tt s).cmd = ToneCmd.toneOff) ∧
    (s.toneState = TONE_PAUSE → now ≤ s.toneTimer →
      updateToneState ditT dahT now tt s =
        { st := s, done := false, cmd := ToneCmd.noop }) := by
  constructor
  · intro hs h
    simp [updateToneState, hs, h, TONE_ON, TONE_PAUSE, IDLE_STATE]
  · intro hs h
    simp [updateToneState, hs, Nat.not_lt.mpr h, TONE_ON, TONE_PAUSE, IDLE_STATE]

/-- Witness for `post_element_silence_one_dit`: after a dah (lastTone = DAH)
the armed silence is still one dit-duration. -/
theorem post_element_silence_one_dit_witness :
    (updateToneState 60 180 300 DAH
      { toneState := TONE_ON, lastTone := DAH, toneTimer := 280 }).st.toneState
      = TONE_PAUSE ∧
    (updateToneState 60 180 300 DAH
      { toneState := TONE_ON, lastTone := DAH, toneTimer := 280 }).st.toneTimer
      = 300 + 60 ∧
    (updateToneState 60 180 300 DAH
      { toneState := TONE_ON, lastTone := DAH, toneTimer := 280 }).cmd
      = ToneCmd.toneOff :=
  (post_element_silence_one_dit 60 180 300 DAH
    { toneState := TONE_ON, lastTone := DAH, toneTimer := 280 }).1 rfl (by decide)

/-- Claim C7: mid-phase — in `TONE_ON`, or in `TONE_PAUSE` before the
deadline has passed — the result of `updateToneState` does not depend on
the intent at all, so an intent change (including to `QUIET`) never alters
the remainder of an in-progress element or of its trailing silence. -/
theorem intent_ignored_midphase (ditT dahT now tt tt2 : Nat) (s : ToneSt)
    (h : s.toneState = TONE_ON ∨ (s.toneState = TONE_PAUSE ∧ now ≤ s.toneTimer)) :
    updateToneState ditT dahT now tt s = updateToneState ditT dahT now tt2 s := by
  rcases h with hs | ⟨hs, hle⟩
  · simp [updateToneState, hs, TONE_ON, IDLE_STATE]
  · simp [updateToneState, hs, Nat.not_lt.mpr hle, TONE_ON, TONE_PAUSE, IDLE_STATE]

/-- Witness for `intent_ignored_midphase`: mid-tone, intent `DIT_DAH` and
intent `QUIET` produce the same result. -/
theorem intent_ignored_midphase_witness :
    updateToneState 60 180 30 DIT_DAH
      { toneState := TONE_ON, lastTone := DIT, toneTimer := 60 } =
    updateToneState 60 180 30 QUIET
      { toneState := TONE_ON, lastTone := DIT, toneTimer := 60 } :=
  intent_ignored_midphase 60 180 30 DIT_DAH QUIET
    { toneState := TONE_ON, lastTone := DIT, toneTimer := 60 } (Or.inl rfl)

/-- Claim C8: `updateToneState` returns `done = true` exactly when it is in
`TONE_PAUSE`, the silence deadline has passed, and the intent is `QUIET`,
`DIT` or `DAH`; and whenever it returns true it has just moved to
`IDLE_STATE` with `lastTone = QUIET`.  In particular every tick of a
squeeze alternation returns false. -/
theorem done_iff_silence_exit (ditT dahT now tt : Nat) (s : ToneSt) :
    ((updateToneState ditT dahT now tt s).done = true ↔
      s.toneState = TONE_PAUSE ∧ s.toneTimer < now ∧
        (tt = QUIET ∨ tt = DIT ∨ tt = DAH)) ∧
    ((updateToneState ditT dahT now tt s).done = true →
      (updateToneState ditT dahT now tt s).st.toneState = IDLE_STATE ∧
      (updateToneState ditT dahT now tt s).st.lastTone = QUIET) := by
  unfold updateToneState
  simp only [QUIET, DIT, DAH, DIT_DAH, DAH_DIT, IDLE_STATE, TONE_ON, TONE_PAUSE]
  split_ifs <;> simp_all

/-- Witness for `done_iff_silence_exit` at the end of a dit's trailing
silence with the paddle released. -/
theorem done_iff_silence_exit_witness :
    ((updateToneState 60 180 200 QUIET
      { toneState := TONE_PAUSE, lastTone := DIT, toneTimer := 100 }).done = true ↔
      (TONE_PAUSE : Nat) = TONE_PAUSE ∧ (100 : Nat) < 200 ∧
        (QUIET = QUIET ∨ QUIET = DIT ∨ QUIET = DAH)) ∧
    ((updateToneState 60 180 200 QUIET
      { toneState := TONE_PAUSE, lastTone := DIT, toneTimer := 100 }).done = true →
      (updateToneState 60 180 200 QUIET
        { toneState := TONE_PAUSE, lastTone := DIT, toneTimer := 100 }).st.toneState
        = IDLE_STATE ∧
      (updateToneState 60 180 200 QUIET
        { toneState := TONE_PAUSE, lastTone := DIT, toneTimer := 100 }).st.lastTone
        = QUIET) :=
  done_iff_silence_exit 60 180 200 QUIET
    { toneState := TONE_PAUSE, lastTone := DIT, toneTimer := 100 }

/-- Claim C9: in `DIT_INPUT` with the dit paddle released and only the dah
paddle pressed, state and tone type are unchanged (the machine keeps
sending dits); symmetrically for `DAH_INPUT` with only the dit paddle
pressed. -/
theorem opposite_paddle_hold_keeps_sending (s : MainSt) :
    (s.state = DIT_INPUT → s.toneType = DIT →
      (updateMainState false true s).toneType = DIT ∧
      (updateMainState false true s).state = DIT_INPUT) ∧
    (s.state = DAH_INPUT → s.toneType = DAH →
      (updateMainState true false s).toneType = DAH ∧
      (updateMainState true false s).state = DAH_INPUT) := by
  constructor
  · intro h1 h2
    simp [updateMainState, h1, h2, IDLE_STATE, DIT_INPUT, DAH_INPUT]
  · intro h1 h2
    simp [updateMainState, h1, h2, IDLE_STATE, DIT_INPUT, DAH_INPUT]

/-- Witness for `opposite_paddle_hold_keeps_sending` on concrete sending
states. -/
theorem opposite_paddle_hold_keeps_sending_witness :
    (updateMainState false true { state := DIT_INPUT, toneType := DIT }).toneType = DIT ∧
    (updateMainState false true { state := DIT_INPUT, toneType := DIT }).state
      = DIT_INPUT :=
  (opposite_paddle_hold_keeps_sending { state := DIT_INPUT, toneType := DIT }).1 rfl rfl

/-- One step of the paddle machine keeps `state` inside
`{IDLE_STATE, DIT_INPUT, DAH_INPUT, DIT_DAH_INPUT}`. -/
theorem updateMainState_states (d1 d2 : Bool) (s : MainSt)
    (h : s.state = IDLE_STATE ∨ s.state = DIT_INPUT ∨
      s.state = DAH_INPUT ∨ s.state = DIT_DAH_INPUT) :
    (updateMainState d1 d2 s).state = IDLE_STATE ∨
    (updateMainState d1 d2 s).state = DIT_INPUT ∨
    (updateMainState d1 d2 s).state = DAH_INPUT ∨
    (updateMainState d1 d2 s).state = DIT_DAH_INPUT := by
  rcases h with h | h | h | h <;> cases d1 <;> cases d2 <;>
    simp_all [updateMainState, IDLE_STATE, DIT_INPUT, DAH_INPUT, DIT_DAH_INPUT]

/-- Any run of the paddle machine from a state inside the four live states
stays inside them. -/
theorem runMain_states (inputs : List (Bool × Bool)) (s : MainSt)
    (h : s.state = IDLE_STATE ∨ s.state = DIT_INPUT ∨
      s.state = DAH_INPUT ∨ s.state = DIT_DAH_INPUT) :
    (runMain inputs s).state = IDLE_STATE ∨
    (runMain inputs s).state = DIT_INPUT ∨
    (runMain inputs s).state = DAH_INPUT ∨
    (runMain inputs s).state = DIT_DAH_INPUT := by
  induction inputs generalizing s with
  | nil => simpa [runMain] using h
  | cons p rest ih =>
    obtain ⟨d1, d2⟩ := p
    simpa [runMain] using ih (updateMainState d1 d2 s) (updateMainState_states d1 d2 s h)

/-- Claim C10: from the `setup()` state, every input sequence leaves the
paddle machine in one of `IDLE_STATE`, `DIT_INPUT`, `DAH_INPUT`,
`DIT_DAH_INPUT`; the declared `DAH_DIT_INPUT` is never reached, because
both squeeze entries — dit-first (tone type `DIT_DAH`) and dah-first (tone
type `DAH_DIT`) — set the state to `DIT_DAH_INPUT`. -/
theorem dahDitInput_never_reached (inputs : List (Bool × Bool)) :
    ((runMain inputs mainInit).state = IDLE_STATE ∨
     (runMain inputs mainInit).state = DIT_INPUT ∨
     (runMain inputs mainInit).state = DAH_INPUT ∨
     (runMain inputs mainInit).state = DIT_DAH_INPUT) ∧
    (runMain inputs mainInit).state ≠ DAH_DIT_INPUT ∧
    (updateMainState true true { state := DIT_INPUT, toneType := DIT }).state
      = DIT_DAH_INPUT ∧
    (updateMainState true true { state := DIT_INPUT, toneType := DIT }).toneType
      = DIT_DAH ∧
    (updateMainState true true { state := DAH_INPUT, toneType := DAH }).state
      = DIT_DAH_INPUT ∧
    (updateMainState true true { state := DAH_INPUT, toneType := DAH }).toneType
      = DAH_DIT := by
  have h := runMain_states inputs mainInit (Or.inl rfl)
  refine ⟨h, ?_, by decide, by decide, by decide, by decide⟩
  rcases h with h | h | h | h <;>
    simp [h, IDLE_STATE, DIT_INPUT, DAH_INPUT, DIT_DAH_INPUT, DAH_DIT_INPUT]

end IambicTone
